import Mathlib

/-!
# Verification of the raspi-tex buffer pipeline (raspi-tex.c)

Shallow embedding of the cross-thread buffer pipeline implemented in
`src/raspberrypi-localizer/src/raspi-tex.c`.  MMAL buffer headers become a
Lean structure carrying the fields the code reads (`length`, `data`, `pts`,
`dts`) plus outcome oracles for the external GPU operations performed on the
buffer (`raspitexutil_update_texture`, `sbpp_redraw`, `eglSwapBuffers` —
these live outside this file's source and are treated as opaque operations
that either succeed or fail).  C doubles are modelled as exact rationals
(`ℚ`); the concrete timestamps the claims exercise are exactly representable.
Every side effect of interest (buffer release, texture bind, draw, buffer
swap, queue put, thread join, pool/queue destruction, `usleep(0)`) is
recorded as an `Event` so that ordering and counting properties of the
protocol can be stated over the emitted traces.
-/

/-- An MMAL buffer header (`MMAL_BUFFER_HEADER_T`) as seen by raspi-tex.c,
together with per-buffer outcome oracles for the opaque GPU operations:
`bindOk` is the success of `raspitexutil_update_texture` on this buffer's
handle, `drawOk` the success of `sbpp_redraw` for the frame, and `presentOk`
the status `eglSwapBuffers` would report (the C caller discards it). -/
structure MBuffer where
  id : Nat
  length : Nat
  data : Option Nat
  pts : Int
  dts : Int
  bindOk : Bool := true
  drawOk : Bool := true
  presentOk : Bool := true
  deriving DecidableEq, Repr

/-- Observable actions performed by the code, in program order. -/
inductive Event where
  /-- `raspitexutil_update_texture(state, buf->data)` on buffer `b` with
  outcome `ok`. -/
  | bind (b : Nat) (ok : Bool)
  /-- `mmal_buffer_header_release(buf)` on buffer `b`. -/
  | release (b : Nat)
  /-- `sbpp_redraw(state)` issued while `current_buf` is buffer `b`. -/
  | draw (b : Nat)
  /-- `eglSwapBuffers(display, surface)` presenting buffer `b`; the status
  `ok` is what the call would return — the C code discards it. -/
  | present (b : Nat) (ok : Bool)
  /-- `usleep(0)` — the cooperative context switch. -/
  | yield
  /-- `mmal_queue_put(state->preview_queue, buf)` of buffer `b`. -/
  | enqueue (b : Nat)
  /-- `mmal_port_send_buffer(preview_port, buf)` of buffer `b`. -/
  | send (b : Nat)
  /-- `vcos_thread_join(&state->preview_thread, NULL)`. -/
  | join
  /-- `mmal_pool_destroy(state->preview_pool)` on pool handle `h`. -/
  | destroyPool (h : Nat)
  /-- `mmal_queue_destroy(state->preview_queue)` on queue handle `h`. -/
  | destroyQueue (h : Nat)
  /-- `raspitexutil_destroy_native_window(state)`. -/
  | destroyWindow
  deriving DecidableEq, Repr

/-- The fields of `RASPITEX_STATE` that raspi-tex.c's pipeline code reads or
writes.  `preview_pool` / `preview_queue` model the pool and queue *handles*
(`NULL` ↦ `none`); the queue's contents are threaded separately as a
`List MBuffer` since the queue is owned by MMAL.  `egl_image_valid` models
`state->egl_image != EGL_NO_IMAGE_KHR` (the image is created by the opaque
`raspitexutil_update_texture` on a successful bind). -/
structure RASPITEX_STATE where
  is_ready : Bool
  egl_image_valid : Bool
  preview_buf : Option MBuffer
  current_buf : Option MBuffer
  prev_buff_time : ℚ
  curr_buff_time : ℚ
  preview_stop : Bool
  preview_pool : Option Nat
  preview_queue : Option Nat
  deriving DecidableEq, Repr

/-- `check_egl_image` (raspi-tex.c:104-110): `-1` if there is no valid EGL
image, `0` otherwise. -/
def check_egl_image (state : RASPITEX_STATE) : Int :=
  if state.egl_image_valid = false then -1 else 0

/-- The frame-time computation of raspi-tex.c:156-157:
`curr_buff_time = ((double)pts)/1000.0; curr_buff_time *= (1 - 2*(curr_buff_time<0));`
(the comparison `t<0` is an int 0/1 in C). -/
def corrected_time (pts : Int) : ℚ :=
  let t : ℚ := (pts : ℚ) / 1000
  t * (1 - 2 * (if t < 0 then (1 : ℚ) else 0))

/-- `raspitex_draw` (raspi-tex.c:120-171).  The only caller passes a buffer
freshly dequeued from `preview_queue`, so the C guard `if (buf)` is always
taken and `buf` is modelled as non-optional.  Returns the C return code, the
updated state and the trace of performed actions.

Control flow mirrored from the source: if `is_ready`, attempt the texture
update; on failure `goto end` returns the nonzero rc with the buffer neither
released nor retained.  Otherwise release the PREVIOUS retained buffer
(`state->preview_buf`) and retain `buf`.  Then, if a valid EGL image exists,
set `current_buf`, update the frame times, call `sbpp_redraw` (failure →
`goto end`), and call `eglSwapBuffers`, whose status is discarded. -/
def raspitex_draw (state : RASPITEX_STATE) (buf : MBuffer) :
    Int × RASPITEX_STATE × List Event :=
  if state.is_ready && !buf.bindOk then
    (1, state, [Event.bind buf.id false])
  else
    let texEvents : List Event :=
      if state.is_ready then [Event.bind buf.id true] else []
    let state :=
      if state.is_ready then { state with egl_image_valid := true } else state
    let relEvents : List Event :=
      match state.preview_buf with
      | some prev => [Event.release prev.id]
      | none => []
    let state := { state with preview_buf := some buf }
    if check_egl_image state = 0 then
      let state := { state with
        current_buf := some buf,
        prev_buff_time := state.curr_buff_time,
        curr_buff_time := corrected_time buf.pts }
      if buf.drawOk then
        (0, state, texEvents ++ relEvents ++
          [Event.draw buf.id, Event.present buf.id buf.presentOk])
      else
        (1, state, texEvents ++ relEvents ++ [Event.draw buf.id])
    else
      (0, state, texEvents ++ relEvents)

/-- `preview_process_returned_bufs` (raspi-tex.c:182-203).  The second
argument is the current contents of `state->preview_queue` (head = next
`mmal_queue_get` result).  Returns the C return code, the updated state, the
buffers still in the queue when the function returns (on the early `return
rc` after a draw failure the undequeued buffers remain), and the trace.
Each successfully handled dequeue is followed by `usleep(0)`; when
`preview_stop` is already set the dequeued buffer is skipped (neither drawn
nor released) and the loop continues. -/
def preview_process_returned_bufs :
    RASPITEX_STATE → List MBuffer → Int × RASPITEX_STATE × List MBuffer × List Event
  | state, [] => (0, state, [], [])
  | state, buf :: rest =>
    if state.preview_stop then
      let out := preview_process_returned_bufs state rest
      (out.1, out.2.1, out.2.2.1, Event.yield :: out.2.2.2)
    else
      let d := raspitex_draw state buf
      if d.1 = 0 then
        let out := preview_process_returned_bufs d.2.1 rest
        (out.1, out.2.1, out.2.2.1, d.2.2 ++ Event.yield :: out.2.2.2)
      else
        (d.1, { d.2.1 with preview_stop := true }, rest, d.2.2)

/-- The drain at the end of `preview_worker` (raspi-tex.c:247-250): every
buffer still in `preview_queue` is released. -/
def preview_worker_drain (queue : List MBuffer) : List Event :=
  queue.map (fun buf => Event.release buf.id)

/-- One pass of the `preview_worker` steady-state loop body
(raspi-tex.c:228-245): send every free pool buffer to the camera preview
port (send failures are only logged), then process the returned buffers; a
nonzero result sets `preview_stop`. -/
def preview_worker_loop_body (state : RASPITEX_STATE) (poolFree : List MBuffer)
    (queue : List MBuffer) :
    Int × RASPITEX_STATE × List MBuffer × List Event :=
  let sendEvents : List Event := poolFree.map (fun buf => Event.send buf.id)
  let out := preview_process_returned_bufs state queue
  let state' := if out.1 = 0 then out.2.1 else { out.2.1 with preview_stop := true }
  (out.1, state', out.2.2.1, sendEvents ++ out.2.2.2)

/-- `preview_output_cb` (raspi-tex.c:263-289).  `arrival` is the
`gettimeofday`-derived microsecond clock value the callback computes.
Returns the updated state, the updated queue contents, and the trace.
Zero-length buffer: set `preview_stop`, release.  Null data handle: release
only.  Otherwise stamp `dts` with the arrival time and enqueue. -/
def preview_output_cb (state : RASPITEX_STATE) (arrival : Int) (buf : MBuffer)
    (queue : List MBuffer) : RASPITEX_STATE × List MBuffer × List Event :=
  if buf.length = 0 then
    ({ state with preview_stop := true }, queue, [Event.release buf.id])
  else if buf.data = none then
    (state, queue, [Event.release buf.id])
  else
    (state, queue ++ [{ buf with dts := arrival }], [Event.enqueue buf.id])

/-- A sequence of producer-callback invocations, each with its arrival clock
value, applied in order to a state and queue. -/
def run_callbacks :
    RASPITEX_STATE → List MBuffer → List (Int × MBuffer) → RASPITEX_STATE × List MBuffer
  | state, queue, [] => (state, queue)
  | state, queue, (arr, buf) :: rest =>
    let out := preview_output_cb state arr buf queue
    run_callbacks out.1 out.2.1 rest

/-- `raspitex_stop` (raspi-tex.c:451-459): only when the stop flag is not
already set does it set the flag and join the worker thread. -/
def raspitex_stop (state : RASPITEX_STATE) : RASPITEX_STATE × List Event :=
  if state.preview_stop = false then
    ({ state with preview_stop := true }, [Event.join])
  else
    (state, [])

/-- `raspitex_destroy` (raspi-tex.c:398-416): destroy the pool if its handle
is non-NULL and null the handle; likewise the queue; destroy the native
window only when `is_ready`. -/
def raspitex_destroy (state : RASPITEX_STATE) : RASPITEX_STATE × List Event :=
  let step1 : RASPITEX_STATE × List Event :=
    match state.preview_pool with
    | some p => ({ state with preview_pool := none }, [Event.destroyPool p])
    | none => (state, [])
  let step2 : RASPITEX_STATE × List Event :=
    match step1.1.preview_queue with
    | some q => ({ step1.1 with preview_queue := none }, [Event.destroyQueue q])
    | none => (step1.1, [])
  let windowEvents : List Event :=
    if step2.1.is_ready then [Event.destroyWindow] else []
  (step2.1, step1.2 ++ step2.2 ++ windowEvents)

/-- The ids a trace releases back to the pool
(`mmal_buffer_header_release` returns the buffer to its pool). -/
def releasedIds (events : List Event) : List Nat :=
  events.filterMap (fun e => match e with | Event.release b => some b | _ => none)

/-- Pool contents (free-buffer ids) after the releases in a trace return
their buffers to the pool. -/
def poolAfter (pool : List Nat) (events : List Event) : List Nat :=
  pool ++ releasedIds events

/-- The worker is in its steady running configuration: graphics bound
(`is_ready`), a valid EGL image exists, and the stop flag is clear. -/
def goodState (s : RASPITEX_STATE) : Prop :=
  s.is_ready = true ∧ s.egl_image_valid = true ∧ s.preview_stop = false

instance (s : RASPITEX_STATE) : Decidable (goodState s) := by
  unfold goodState; infer_instance

/-- Every frame's texture update and redraw succeed. -/
def framesOk (fs : List MBuffer) : Prop :=
  ∀ f ∈ fs, f.bindOk = true ∧ f.drawOk = true

instance (fs : List MBuffer) : Decidable (framesOk fs) := by
  unfold framesOk; infer_instance

/-- Closed form of the trace `preview_process_returned_bufs` emits from a
good state on all-ok frames, parameterised by the retained previous buffer:
for each frame, bind it, release the retained previous buffer, draw,
present, yield, and continue with the frame as the newly retained one. -/
def steadyTrace : Option MBuffer → List MBuffer → List Event
  | _, [] => []
  | prev, f :: rest =>
    Event.bind f.id true ::
      ((match prev with | some p => [Event.release p.id] | none => []) ++
        (Event.draw f.id :: Event.present f.id f.presentOk :: Event.yield ::
          steadyTrace (some f) rest))

/-- The ids released along `steadyTrace prev fs`, in order. -/
def releaseIds : Option MBuffer → List MBuffer → List Nat
  | _, [] => []
  | none, f :: rest => releaseIds (some f) rest
  | some p, f :: rest => p.id :: releaseIds (some f) rest

/-! ## Concrete fixtures used by scenarios, witnesses and counterexamples -/

/-- A steady running state: graphics bound, a valid EGL image exists, no
buffer retained yet, stop flag clear, pool and queue handles live. -/
def runningState : RASPITEX_STATE :=
  { is_ready := true, egl_image_valid := true, preview_buf := none,
    current_buf := none, prev_buff_time := 0, curr_buff_time := 0,
    preview_stop := false, preview_pool := some 1, preview_queue := some 2 }

/-- A state in which the worker itself has already set the stop flag
(end-of-stream or fatal loop error), before `raspitex_stop` was called. -/
def selfStoppedState : RASPITEX_STATE :=
  { runningState with preview_stop := true }

/-- First well-formed camera frame (timestamp 1000 µs on buffer 1). -/
def frame1 : MBuffer := { id := 1, length := 100, data := some 11, pts := 1000, dts := 0 }

/-- Second well-formed camera frame (timestamp 2000 µs on buffer 2). -/
def frame2 : MBuffer := { id := 2, length := 100, data := some 12, pts := 2000, dts := 0 }

/-- A zero-length (end-of-stream) buffer. -/
def eosBuffer : MBuffer := { id := 3, length := 0, data := some 13, pts := 0, dts := 0 }

/-- A buffer with a NULL opaque data handle. -/
def nullBuffer : MBuffer := { id := 4, length := 50, data := none, pts := 0, dts := 0 }

/-- A well-formed buffer the producer callback will enqueue. -/
def normalBuffer : MBuffer := { id := 5, length := 50, data := some 15, pts := 3000, dts := 0 }

/-- A frame whose `eglSwapBuffers` would report failure. -/
def framePresentFail : MBuffer :=
  { id := 6, length := 60, data := some 16, pts := 4000, dts := 0, presentOk := false }

/-- A frame whose `sbpp_redraw` fails. -/
def frameDrawFail : MBuffer :=
  { id := 7, length := 60, data := some 17, pts := 5000, dts := 0, drawOk := false }

/-- A frame arriving after `frame2` with a smaller (earlier) timestamp:
the spec's wrap-around scenario `[1000, 2000, 1500]`. -/
def frame1500 : MBuffer := { id := 9, length := 60, data := some 19, pts := 1500, dts := 0 }

/-- A frame with a negative raw timestamp (backward-wrapped clock). -/
def frameNegPts : MBuffer := { id := 10, length := 60, data := some 20, pts := -2500, dts := 0 }

/-- The retained previous buffer in the bind-failure scenario. -/
def retainedFrame : MBuffer := { id := 21, length := 60, data := some 31, pts := 1000, dts := 0 }

/-- The frame whose texture bind (`raspitexutil_update_texture`) fails. -/
def bindFailFrame : MBuffer :=
  { id := 22, length := 60, data := some 32, pts := 2000, dts := 0, bindOk := false }

/-- A running state that has `retainedFrame` retained in `preview_buf`. -/
def stateWithRetained : RASPITEX_STATE :=
  { runningState with preview_buf := some retainedFrame }

/-! ## Helper lemmas shared by the claim proofs -/

/-- The in-place sign correction of raspi-tex.c:157 computes the absolute
value of the raw time. -/
theorem corrected_time_eq_abs (pts : Int) : corrected_time pts = |(pts : ℚ) / 1000| := by
  show ((pts : ℚ) / 1000) * (1 - 2 * (if (pts : ℚ) / 1000 < 0 then (1 : ℚ) else 0)) = _
  rcases lt_or_ge ((pts : ℚ) / 1000) 0 with h | h
  · rw [if_pos h, abs_of_neg h]; ring
  · rw [if_neg (not_lt.mpr h), abs_of_nonneg h]; ring

/-- The exit drain releases exactly the ids of the buffers still queued. -/
theorem releasedIds_drain (q : List MBuffer) :
    releasedIds (preview_worker_drain q) = q.map MBuffer.id := by
  induction q with
  | nil => rfl
  | cons b rest ih =>
    simp [preview_worker_drain, releasedIds, List.filterMap_cons] at ih ⊢
    exact ih

/-- Events that destroy the buffer pool or the transfer queue. -/
def isPoolOrQueueDestroy : Event → Bool
  | Event.destroyPool _ => true
  | Event.destroyQueue _ => true
  | _ => false

/-! ## C4 — malformed-frame handling in the producer callback -/

/-- C4: for every buffer delivered to `preview_output_cb`, a zero-length
buffer sets the stop flag and is released exactly once without being
enqueued; a null-handle buffer is released exactly once without setting the
stop flag and without being enqueued; otherwise the buffer is stamped with
its arrival time and enqueued exactly once, and not released. -/
theorem C4_malformed_frame_handling (s : RASPITEX_STATE) (arr : Int)
    (buf : MBuffer) (q : List MBuffer) :
    (buf.length = 0 →
      preview_output_cb s arr buf q =
        ({ s with preview_stop := true }, q, [Event.release buf.id])) ∧
    (buf.length ≠ 0 → buf.data = none →
      preview_output_cb s arr buf q = (s, q, [Event.release buf.id])) ∧
    (buf.length ≠ 0 → buf.data ≠ none →
      preview_output_cb s arr buf q =
        (s, q ++ [{ buf with dts := arr }], [Event.enqueue buf.id])) := by
  refine ⟨fun h0 => ?_, fun h0 h1 => ?_, fun h0 h1 => ?_⟩
  · simp [preview_output_cb, h0]
  · simp [preview_output_cb, h0, h1]
  · simp [preview_output_cb, h0, h1]

/-- Witness for C4 at the three concrete buffer shapes. -/
theorem C4_malformed_frame_handling_witness :
    preview_output_cb runningState 7 eosBuffer [] =
      ({ runningState with preview_stop := true }, [], [Event.release 3]) ∧
    preview_output_cb runningState 7 nullBuffer [] =
      (runningState, [], [Event.release 4]) ∧
    preview_output_cb runningState 7 normalBuffer [] =
      (runningState, [{ normalBuffer with dts := 7 }], [Event.enqueue 5]) :=
  ⟨(C4_malformed_frame_handling runningState 7 eosBuffer []).1 rfl,
   (C4_malformed_frame_handling runningState 7 nullBuffer []).2.1 (by decide) rfl,
   (C4_malformed_frame_handling runningState 7 normalBuffer []).2.2 (by decide) (by decide)⟩

/-! ## C7 — stop semantics -/

/-- C7 counterexample: when the worker has already set the stop flag itself
(end-of-stream or fatal error), `raspitex_stop` takes the `else` path and
performs no `vcos_thread_join` at all, so it does not block until the worker
thread has exited — contradicting the claimed join semantics for that case. -/
theorem C7_stop_counterexample :
    (raspitex_stop selfStoppedState).2 = [] ∧
    Event.join ∉ (raspitex_stop selfStoppedState).2 := by decide

/-- C7 (amended): `raspitex_stop` sets the stop flag and joins the worker
thread only when the flag was not already set; when the flag is already set
(including when the worker set it itself) it returns immediately without
joining.  A second call is a no-op: it returns the same state and performs
no action. -/
theorem C7_stop_amended (s : RASPITEX_STATE) :
    (s.preview_stop = false →
      raspitex_stop s = ({ s with preview_stop := true }, [Event.join])) ∧
    (s.preview_stop = true → raspitex_stop s = (s, [])) ∧
    raspitex_stop (raspitex_stop s).1 = ((raspitex_stop s).1, []) := by
  refine ⟨fun h => by simp [raspitex_stop, h], fun h => by simp [raspitex_stop, h], ?_⟩
  cases hs : s.preview_stop <;> simp [raspitex_stop, hs]

/-- Witness for C7 (amended) at a running and an already-stopped state. -/
theorem C7_stop_amended_witness :
    raspitex_stop runningState =
      ({ runningState with preview_stop := true }, [Event.join]) ∧
    raspitex_stop selfStoppedState = (selfStoppedState, []) :=
  ⟨(C7_stop_amended runningState).1 rfl, (C7_stop_amended selfStoppedState).2.1 rfl⟩

/-! ## C10 — destroy idempotence for pool and queue -/

/-- C10: after `raspitex_destroy` returns, the pool and queue handles are
`NULL`; a second call on the resulting state performs no pool or queue
destruction (the nil-safe guards skip both) and returns the state unchanged. -/
theorem C10_destroy_idempotence (s : RASPITEX_STATE) :
    (raspitex_destroy s).1.preview_pool = none ∧
    (raspitex_destroy s).1.preview_queue = none ∧
    (raspitex_destroy (raspitex_destroy s).1).1 = (raspitex_destroy s).1 ∧
    (raspitex_destroy (raspitex_destroy s).1).2.filter isPoolOrQueueDestroy = [] := by
  rcases s with ⟨ir, ev, pb, cb, pt, ct, ps, pool, queue⟩
  cases pool <;> cases queue <;> cases ir <;>
    simp [raspitex_destroy, isPoolOrQueueDestroy]

/-! ## C5 — presentation failure -/

/-- C5 counterexample: on a frame whose `eglSwapBuffers` reports failure,
`raspitex_draw` was called through the loop, the present was issued with a
failing status, and yet the loop's return code is 0 and the stop flag stays
clear — the code discards the `eglSwapBuffers` result (raspi-tex.c:162), so
a present failure is not propagated and does not terminate the loop. -/
theorem C5_present_failure_counterexample :
    Event.present 6 false ∈
      (preview_process_returned_bufs runningState [framePresentFail]).2.2.2 ∧
    (preview_process_returned_bufs runningState [framePresentFail]).1 = 0 ∧
    (preview_process_returned_bufs runningState [framePresentFail]).2.1.preview_stop
      = false := by decide

/-- C5 (amended): a failure of the draw call (`sbpp_redraw`) is fatal to the
loop — the nonzero code propagates and `preview_process_returned_bufs` sets
the stop flag and returns; the present (`eglSwapBuffers`) status, however,
is discarded, so a failed present leaves the return code 0 and the stop
flag clear, and the loop continues. -/
theorem C5_draw_fatal_present_ignored (s : RASPITEX_STATE) (f g : MBuffer)
    (hs : goodState s) (hfb : f.bindOk = true) (hfd : f.drawOk = false)
    (hgb : g.bindOk = true) (hgd : g.drawOk = true) (hgp : g.presentOk = false) :
    ((preview_process_returned_bufs s [f]).1 ≠ 0 ∧
      (preview_process_returned_bufs s [f]).2.1.preview_stop = true) ∧
    ((preview_process_returned_bufs s [g]).1 = 0 ∧
      (preview_process_returned_bufs s [g]).2.1.preview_stop = false ∧
      Event.present g.id false ∈
        (preview_process_returned_bufs s [g]).2.2.2) := by
  obtain ⟨h1, h2, h3⟩ := hs
  constructor
  · simp [preview_process_returned_bufs, raspitex_draw, check_egl_image,
      h1, h2, h3, hfb, hfd]
  · simp [preview_process_returned_bufs, raspitex_draw, check_egl_image,
      h1, h2, h3, hgb, hgd, hgp]

/-- Witness for C5 (amended) at a draw-failing and a present-failing frame. -/
theorem C5_draw_fatal_present_ignored_witness :
    ((preview_process_returned_bufs runningState [frameDrawFail]).1 ≠ 0 ∧
      (preview_process_returned_bufs runningState [frameDrawFail]).2.1.preview_stop
        = true) ∧
    ((preview_process_returned_bufs runningState [framePresentFail]).1 = 0 ∧
      (preview_process_returned_bufs runningState [framePresentFail]).2.1.preview_stop
        = false ∧
      Event.present framePresentFail.id false ∈
        (preview_process_returned_bufs runningState [framePresentFail]).2.2.2) :=
  C5_draw_fatal_present_ignored runningState frameDrawFail framePresentFail
    (by decide) rfl rfl rfl rfl rfl

/-! ## C6 — timestamp sign correction -/

/-- C6 counterexample: deliver frames with timestamps 2000 then 1500 (the
spec's wrap-around case).  Both corrected times are positive (2 and 3/2
seconds), the previous frame's value is retained, and the elapsed interval
`curr_buff_time - prev_buff_time` is negative — the sign-correction rule of
raspi-tex.c:157 only negates a negative current timestamp and does not
normalize a smaller-after-larger timestamp into a non-negative interval. -/
theorem C6_wraparound_counterexample :
    (preview_process_returned_bufs runningState [frame2, frame1500]).2.1.curr_buff_time
      = 3 / 2 ∧
    (preview_process_returned_bufs runningState [frame2, frame1500]).2.1.prev_buff_time
      = 2 ∧
    (preview_process_returned_bufs runningState [frame2, frame1500]).2.1.curr_buff_time -
      (preview_process_returned_bufs runningState [frame2, frame1500]).2.1.prev_buff_time
      < 0 := by
  have hc : (preview_process_returned_bufs runningState [frame2, frame1500]).2.1.curr_buff_time
      = corrected_time 1500 := by
    simp [preview_process_returned_bufs, raspitex_draw, check_egl_image,
      runningState, frame2, frame1500]
  have hp : (preview_process_returned_bufs runningState [frame2, frame1500]).2.1.prev_buff_time
      = corrected_time 2000 := by
    simp [preview_process_returned_bufs, raspitex_draw, check_egl_image,
      runningState, frame2, frame1500]
  rw [hc, hp, corrected_time_eq_abs, corrected_time_eq_abs]
  norm_num [abs_of_pos, abs_of_nonneg]

/-- C6 (amended): for every drawn frame the current frame time is
`buf.pts / 1000` with the sign-correction rule applied, which equals the
absolute value `|pts / 1000|` and is therefore always non-negative (negative
raw timestamps are normalized to positive values), and the previous frame's
corrected value is retained as `prev_buff_time`; the correction does not
make the elapsed interval non-negative when a smaller positive timestamp
follows a larger one. -/
theorem C6_sign_correction_amended (s : RASPITEX_STATE) (f : MBuffer)
    (hs : goodState s) (hb : f.bindOk = true) :
    (raspitex_draw s f).2.1.curr_buff_time = |(f.pts : ℚ) / 1000| ∧
    0 ≤ (raspitex_draw s f).2.1.curr_buff_time ∧
    (raspitex_draw s f).2.1.prev_buff_time = s.curr_buff_time := by
  obtain ⟨h1, h2, h3⟩ := hs
  have hd : (raspitex_draw s f).2.1.curr_buff_time = corrected_time f.pts ∧
      (raspitex_draw s f).2.1.prev_buff_time = s.curr_buff_time := by
    cases hdo : f.drawOk <;>
      simp [raspitex_draw, check_egl_image, h1, h2, hb, hdo]
  refine ⟨?_, ?_, hd.2⟩
  · rw [hd.1, corrected_time_eq_abs]
  · rw [hd.1, corrected_time_eq_abs]; exact abs_nonneg _

/-- Witness for C6 (amended) at a frame with a negative raw timestamp. -/
theorem C6_sign_correction_amended_witness :
    (raspitex_draw runningState frameNegPts).2.1.curr_buff_time
      = |((-2500 : Int) : ℚ) / 1000| ∧
    0 ≤ (raspitex_draw runningState frameNegPts).2.1.curr_buff_time ∧
    (raspitex_draw runningState frameNegPts).2.1.prev_buff_time
      = runningState.curr_buff_time :=
  C6_sign_correction_amended runningState frameNegPts (by decide) rfl

/-! ## C2 — buffer accounting on fatal bind failure -/

/-- C2 counterexample: with `retainedFrame` (buffer 21) retained from the
first frame and a bind failure on the second frame (buffer 22), the loop
does terminate with the stop flag set, but the combined trace of the loop
and the worker's exit drain contains no release of either buffer: on the
`goto end` path of raspi-tex.c:137-141 the failed buffer is neither
released nor retained, and the exit drain (raspi-tex.c:249-250) only
releases buffers still in the queue — both buffers are leaked, not zero. -/
theorem C2_bind_failure_leak_counterexample :
    (preview_process_returned_bufs stateWithRetained [bindFailFrame]).1 ≠ 0 ∧
    (preview_process_returned_bufs stateWithRetained [bindFailFrame]).2.1.preview_stop
      = true ∧
    ((preview_process_returned_bufs stateWithRetained [bindFailFrame]).2.2.2 ++
      preview_worker_drain
        (preview_process_returned_bufs stateWithRetained [bindFailFrame]).2.2.1).count
      (Event.release 21) = 0 ∧
    ((preview_process_returned_bufs stateWithRetained [bindFailFrame]).2.2.2 ++
      preview_worker_drain
        (preview_process_returned_bufs stateWithRetained [bindFailFrame]).2.2.1).count
      (Event.release 22) = 0 := by decide

/-- C2 (amended): if binding a dequeued buffer's handle fails, the loop
terminates with the stop flag set, but neither the retained previous buffer
(still held in `preview_buf`) nor the buffer whose bind failed is released
back to the pool by the worker; the exit drain releases exactly the buffers
that were still in the transfer queue, so those two buffers are leaked. -/
theorem C2_bind_failure_amended (s : RASPITEX_STATE) (p f : MBuffer)
    (rest : List MBuffer)
    (hready : s.is_ready = true) (hstop : s.preview_stop = false)
    (hprev : s.preview_buf = some p) (hbind : f.bindOk = false)
    (hp : p.id ∉ rest.map MBuffer.id) (hf : f.id ∉ rest.map MBuffer.id) :
    (preview_process_returned_bufs s (f :: rest)).1 = 1 ∧
    (preview_process_returned_bufs s (f :: rest)).2.1.preview_stop = true ∧
    (preview_process_returned_bufs s (f :: rest)).2.1.preview_buf = some p ∧
    releasedIds ((preview_process_returned_bufs s (f :: rest)).2.2.2 ++
        preview_worker_drain (preview_process_returned_bufs s (f :: rest)).2.2.1)
      = rest.map MBuffer.id ∧
    Event.release p.id ∉
      ((preview_process_returned_bufs s (f :: rest)).2.2.2 ++
        preview_worker_drain (preview_process_returned_bufs s (f :: rest)).2.2.1) ∧
    Event.release f.id ∉
      ((preview_process_returned_bufs s (f :: rest)).2.2.2 ++
        preview_worker_drain (preview_process_returned_bufs s (f :: rest)).2.2.1) := by
  have hout : preview_process_returned_bufs s (f :: rest) =
      (1, { s with preview_stop := true }, rest, [Event.bind f.id false]) := by
    simp [preview_process_returned_bufs, raspitex_draw, hready, hstop, hbind]
  rw [hout]
  refine ⟨rfl, rfl, hprev, ?_, ?_, ?_⟩
  · simpa [releasedIds] using releasedIds_drain rest
  · simp only [preview_worker_drain, List.mem_append, List.mem_cons, List.mem_map,
      List.mem_singleton]
    rintro (h | ⟨b, hb, he⟩)
    · simp at h
    · exact hp (List.mem_map.mpr ⟨b, hb, by injection he⟩)
  · simp only [preview_worker_drain, List.mem_append, List.mem_cons, List.mem_map,
      List.mem_singleton]
    rintro (h | ⟨b, hb, he⟩)
    · simp at h
    · exact hf (List.mem_map.mpr ⟨b, hb, by injection he⟩)

/-- Witness for C2 (amended) at the concrete bind-failure scenario. -/
theorem C2_bind_failure_amended_witness :
    (preview_process_returned_bufs stateWithRetained [bindFailFrame]).1 = 1 ∧
    (preview_process_returned_bufs stateWithRetained [bindFailFrame]).2.1.preview_stop
      = true ∧
    (preview_process_returned_bufs stateWithRetained [bindFailFrame]).2.1.preview_buf
      = some retainedFrame ∧
    releasedIds ((preview_process_returned_bufs stateWithRetained [bindFailFrame]).2.2.2 ++
        preview_worker_drain
          (preview_process_returned_bufs stateWithRetained [bindFailFrame]).2.2.1)
      = List.map MBuffer.id [] ∧
    Event.release retainedFrame.id ∉
      ((preview_process_returned_bufs stateWithRetained [bindFailFrame]).2.2.2 ++
        preview_worker_drain
          (preview_process_returned_bufs stateWithRetained [bindFailFrame]).2.2.1) ∧
    Event.release bindFailFrame.id ∉
      ((preview_process_returned_bufs stateWithRetained [bindFailFrame]).2.2.2 ++
        preview_worker_drain
          (preview_process_returned_bufs stateWithRetained [bindFailFrame]).2.2.1) :=
  C2_bind_failure_amended stateWithRetained retainedFrame bindFailFrame []
    rfl rfl rfl rfl (by decide) (by decide)

/-! ## Trace shape of the steady-state loop -/

/-- In a ready state with a valid EGL image, a frame whose bind and draw
succeed is processed by `raspitex_draw` as: bind the texture, release the
retained previous buffer, retain the frame, update the frame times, draw
and present, returning 0. -/
theorem raspitex_draw_good (s : RASPITEX_STATE) (f : MBuffer)
    (h1 : s.is_ready = true) (h2 : s.egl_image_valid = true)
    (hb : f.bindOk = true) (hd : f.drawOk = true) :
    raspitex_draw s f =
      (0,
       { s with
         preview_buf := some f, current_buf := some f,
         prev_buff_time := s.curr_buff_time,
         curr_buff_time := corrected_time f.pts },
       Event.bind f.id true ::
         ((match s.preview_buf with
           | some p => [Event.release p.id]
           | none => []) ++
          [Event.draw f.id, Event.present f.id f.presentOk])) := by
  rcases s with ⟨ir, ev, pb, cb, pt, ct, ps, pool, q⟩
  simp only at h1 h2
  subst h1; subst h2
  cases pb <;> simp [raspitex_draw, check_egl_image, hb, hd]

/-- The trace of `preview_process_returned_bufs` from a good state over
all-ok frames is exactly `steadyTrace` of the retained previous buffer. -/
theorem ppb_steady_trace : ∀ (fs : List MBuffer) (s : RASPITEX_STATE),
    goodState s → framesOk fs →
    (preview_process_returned_bufs s fs).2.2.2 = steadyTrace s.preview_buf fs
  | [], _, _, _ => rfl
  | f :: rest, s, hs, hok => by
    obtain ⟨h1, h2, h3⟩ := hs
    obtain ⟨hb, hd⟩ := hok f (List.mem_cons_self f rest)
    have hdraw := raspitex_draw_good s f h1 h2 hb hd
    have ih := ppb_steady_trace rest
      { s with
        preview_buf := some f, current_buf := some f,
        prev_buff_time := s.curr_buff_time,
        curr_buff_time := corrected_time f.pts }
      ⟨h1, h2, h3⟩ (fun x hx => hok x (List.mem_cons_of_mem f hx))
    simp only [h3] at ih
    cases hpb : s.preview_buf <;>
      simp [preview_process_returned_bufs, h3, hdraw, hpb, ih, steadyTrace]

/-- The suffix of the steady trace after the first frame's processing. -/
theorem steadyTrace_tail_sublist (prev : Option MBuffer) (f : MBuffer)
    (rest : List MBuffer) :
    List.Sublist (steadyTrace (some f) rest) (steadyTrace prev (f :: rest)) := by
  have h1 : List.Sublist (steadyTrace (some f) rest)
      (Event.draw f.id :: Event.present f.id f.presentOk :: Event.yield ::
        steadyTrace (some f) rest) :=
    ((List.sublist_cons_self _ _).cons _).cons _
  exact h1.trans ((List.sublist_append_right _ _).cons _)

/-- In the steady trace, the first frame's present strictly precedes its
release (which happens while processing the second frame). -/
theorem steadyTrace_present_release (prev : Option MBuffer) (f g : MBuffer)
    (rest : List MBuffer) :
    List.Sublist [Event.present f.id f.presentOk, Event.release f.id]
      (steadyTrace prev (f :: g :: rest)) := by
  have hrel : List.Sublist [Event.release f.id] (steadyTrace (some f) (g :: rest)) :=
    (List.sublist_append_left [Event.release f.id] _).cons _
  have h2 : List.Sublist [Event.present f.id f.presentOk, Event.release f.id]
      (Event.present f.id f.presentOk :: Event.yield ::
        steadyTrace (some f) (g :: rest)) :=
    (hrel.cons _).cons₂ _
  have h3 : List.Sublist
      (Event.present f.id f.presentOk :: Event.yield ::
        steadyTrace (some f) (g :: rest))
      (steadyTrace prev (f :: g :: rest)) := by
    have hP : List.Sublist
        (Event.present f.id f.presentOk :: Event.yield ::
          steadyTrace (some f) (g :: rest))
        (Event.draw f.id :: Event.present f.id f.presentOk :: Event.yield ::
          steadyTrace (some f) (g :: rest)) :=
      List.sublist_cons_self _ _
    exact hP.trans ((List.sublist_append_right _ _).cons _)
  exact h2.trans h3

/-- In the steady trace, the bind of frame `g` strictly precedes the release
of the preceding frame `f`. -/
theorem steadyTrace_bind_release (prev : Option MBuffer) (f g : MBuffer)
    (rest : List MBuffer) :
    List.Sublist [Event.bind g.id true, Event.release f.id]
      (steadyTrace prev (f :: g :: rest)) := by
  have h1 : List.Sublist [Event.bind g.id true, Event.release f.id]
      (steadyTrace (some f) (g :: rest)) :=
    (List.sublist_append_left [Event.release f.id] _).cons₂ _
  exact h1.trans (steadyTrace_tail_sublist prev f (g :: rest))

/-- Ordering in the steady trace at every index `i`: frame `i`'s present and
frame `i+1`'s bind both precede frame `i`'s release. -/
theorem steadyTrace_release_ordering :
    ∀ (fs : List MBuffer) (prev : Option MBuffer) (i : Nat) (hi : i + 1 < fs.length),
    List.Sublist
      [Event.present (fs.get ⟨i, Nat.lt_of_succ_lt hi⟩).id
          (fs.get ⟨i, Nat.lt_of_succ_lt hi⟩).presentOk,
        Event.release (fs.get ⟨i, Nat.lt_of_succ_lt hi⟩).id]
      (steadyTrace prev fs) ∧
    List.Sublist
      [Event.bind (fs.get ⟨i + 1, hi⟩).id true,
        Event.release (fs.get ⟨i, Nat.lt_of_succ_lt hi⟩).id]
      (steadyTrace prev fs)
  | [], _, i, hi => by simp at hi
  | [f], _, i, hi => by simp at hi
  | f :: g :: rest, prev, 0, _ =>
    ⟨steadyTrace_present_release prev f g rest,
     steadyTrace_bind_release prev f g rest⟩
  | f :: g :: rest, prev, i + 1, hi => by
    have ih := steadyTrace_release_ordering (g :: rest) (some f) i
      (Nat.lt_of_succ_lt_succ hi)
    exact ⟨ih.1.trans (steadyTrace_tail_sublist prev f (g :: rest)),
           ih.2.trans (steadyTrace_tail_sublist prev f (g :: rest))⟩

/-- Release events in the steady trace, counted, are exactly `releaseIds`. -/
theorem steadyTrace_count_release :
    ∀ (prev : Option MBuffer) (fs : List MBuffer) (b : Nat),
    (steadyTrace prev fs).count (Event.release b) = (releaseIds prev fs).count b
  | prev, [], _ => by cases prev <;> rfl
  | prev, f :: rest, b => by
    have ih := steadyTrace_count_release (some f) rest b
    cases prev <;>
      simp [steadyTrace, releaseIds, List.count_cons, List.count_append, ih]

/-- Yields in the steady trace: one per processed frame. -/
theorem steadyTrace_count_yield :
    ∀ (prev : Option MBuffer) (fs : List MBuffer),
    (steadyTrace prev fs).count Event.yield = fs.length
  | prev, [] => by cases prev <;> rfl
  | prev, f :: rest => by
    have ih := steadyTrace_count_yield (some f) rest
    cases prev <;>
      simp [steadyTrace, List.count_cons, List.count_append, ih]

/-- With a retained buffer `p`, the released ids are all frame ids except
the last one's, preceded by `p.id`. -/
theorem releaseIds_some_eq (p : MBuffer) : ∀ (fs : List MBuffer),
    releaseIds (some p) fs = (p.id :: fs.map MBuffer.id).dropLast
  | [] => rfl
  | f :: rest => by
    have ih := releaseIds_some_eq f rest
    simp [releaseIds, ih, List.dropLast_cons₂]

/-- With no retained buffer, the released ids are all frame ids except the
last one's. -/
theorem releaseIds_none_eq : ∀ (fs : List MBuffer),
    releaseIds none fs = (fs.map MBuffer.id).dropLast
  | [] => rfl
  | f :: rest => by simp [releaseIds, releaseIds_some_eq f rest]

/-! ## C1 — deferred-release protocol -/

/-- C1: over any burst of distinct all-ok frames processed from a good state
with no buffer yet retained, each frame `i` (other than the last) is
released exactly once, its release occurs strictly after its own present
(`eglSwapBuffers`), and the bind of frame `i+1` also precedes the release —
in `raspitex_draw` the buffer released is always the retained previous
buffer, never the one just bound. -/
theorem C1_deferred_release (s : RASPITEX_STATE) (fs : List MBuffer)
    (hs : goodState s) (hprev : s.preview_buf = none) (hok : framesOk fs)
    (hnd : (fs.map MBuffer.id).Nodup) (i : Nat) (hi : i + 1 < fs.length) :
    ((preview_process_returned_bufs s fs).2.2.2).count
        (Event.release (fs.get ⟨i, Nat.lt_of_succ_lt hi⟩).id) = 1 ∧
    List.Sublist
      [Event.present (fs.get ⟨i, Nat.lt_of_succ_lt hi⟩).id
          (fs.get ⟨i, Nat.lt_of_succ_lt hi⟩).presentOk,
        Event.release (fs.get ⟨i, Nat.lt_of_succ_lt hi⟩).id]
      ((preview_process_returned_bufs s fs).2.2.2) ∧
    List.Sublist
      [Event.bind (fs.get ⟨i + 1, hi⟩).id true,
        Event.release (fs.get ⟨i, Nat.lt_of_succ_lt hi⟩).id]
      ((preview_process_returned_bufs s fs).2.2.2) := by
  have htr := ppb_steady_trace fs s hs hok
  rw [htr, hprev]
  have hord := steadyTrace_release_ordering fs none i hi
  refine ⟨?_, hord.1, hord.2⟩
  rw [steadyTrace_count_release, releaseIds_none_eq]
  have hlen : i < (fs.map MBuffer.id).dropLast.length := by
    simp only [List.length_dropLast, List.length_map]; omega
  have hget : (fs.map MBuffer.id).dropLast.get ⟨i, hlen⟩
      = (fs.get ⟨i, Nat.lt_of_succ_lt hi⟩).id := by
    simp [List.getElem_dropLast]
  have hmem : (fs.get ⟨i, Nat.lt_of_succ_lt hi⟩).id ∈ (fs.map MBuffer.id).dropLast := by
    rw [← hget]; exact List.get_mem _ _ _
  exact List.count_eq_one_of_mem (hnd.sublist (List.dropLast_sublist _)) hmem

/-- Witness for C1 on the two-frame burst `[frame1, frame2]` at index 0. -/
theorem C1_deferred_release_witness :
    ((preview_process_returned_bufs runningState [frame1, frame2]).2.2.2).count
        (Event.release frame1.id) = 1 ∧
    List.Sublist [Event.present frame1.id frame1.presentOk, Event.release frame1.id]
      ((preview_process_returned_bufs runningState [frame1, frame2]).2.2.2) ∧
    List.Sublist [Event.bind frame2.id true, Event.release frame1.id]
      ((preview_process_returned_bufs runningState [frame1, frame2]).2.2.2) :=
  C1_deferred_release runningState [frame1, frame2] (by decide) rfl (by decide)
    (by decide) 0 (by decide)

/-! ## C8 — idle yield -/

/-- C8 counterexample: a worker loop iteration that finds the transfer queue
empty emits no event at all — in particular no `usleep(0)` yield: the
`usleep` at raspi-tex.c:199 sits inside the dequeue loop body and runs only
after a buffer was dequeued, so an idle iteration spins without yielding. -/
theorem C8_idle_yield_counterexample :
    (preview_worker_loop_body runningState [] []).2.2.2 = [] ∧
    (preview_worker_loop_body runningState [] []).2.2.2.count Event.yield = 0 := by
  decide

/-- C8 (amended): the worker yields (`usleep(0)`) once after each buffer it
dequeues and processes, so a drain pass over `n` queued all-ok frames emits
exactly `n` yields; an iteration that finds the queue empty performs no
yield before retrying. -/
theorem C8_yield_per_buffer_amended (s : RASPITEX_STATE) (fs : List MBuffer)
    (pool : List MBuffer) (hs : goodState s) (hok : framesOk fs) :
    ((preview_process_returned_bufs s fs).2.2.2).count Event.yield = fs.length ∧
    (preview_worker_loop_body s pool []).2.2.2.count Event.yield = 0 := by
  constructor
  · rw [ppb_steady_trace fs s hs hok]
    exact steadyTrace_count_yield s.preview_buf fs
  · simp [preview_worker_loop_body, preview_process_returned_bufs,
      List.count_eq_zero, List.mem_map]

/-- Witness for C8 (amended): two frames drained → two yields; empty queue →
none. -/
theorem C8_yield_per_buffer_amended_witness :
    ((preview_process_returned_bufs runningState [frame1, frame2]).2.2.2).count
        Event.yield = 2 ∧
    (preview_worker_loop_body runningState [normalBuffer] []).2.2.2.count
        Event.yield = 0 :=
  C8_yield_per_buffer_amended runningState [frame1, frame2] [normalBuffer]
    (by decide) (by decide)

/-! ## C9 — queue-content invariant -/

/-- Any buffer in the queue after a sequence of producer callbacks either
was already queued or was enqueued by an invocation whose buffer passed the
length and data-handle guards, stamped with that invocation's arrival time. -/
theorem run_callbacks_mem :
    ∀ (invs : List (Int × MBuffer)) (s : RASPITEX_STATE) (q : List MBuffer)
      (b : MBuffer), b ∈ (run_callbacks s q invs).2 →
      b ∈ q ∨ ∃ p ∈ invs, p.2.length ≠ 0 ∧ p.2.data ≠ none ∧
        b = { p.2 with dts := p.1 }
  | [], _, _, _, hb => Or.inl hb
  | (arr, buf) :: tl, s, q, b, hb => by
    by_cases h0 : buf.length = 0
    · have hb' : b ∈ (run_callbacks { s with preview_stop := true } q tl).2 := by
        simpa [run_callbacks, preview_output_cb, h0] using hb
      rcases run_callbacks_mem tl _ q b hb' with h | ⟨p, hp, hrest⟩
      · exact Or.inl h
      · exact Or.inr ⟨p, List.mem_cons_of_mem _ hp, hrest⟩
    · by_cases h1 : buf.data = none
      · have hb' : b ∈ (run_callbacks s q tl).2 := by
          simpa [run_callbacks, preview_output_cb, h0, h1] using hb
        rcases run_callbacks_mem tl _ q b hb' with h | ⟨p, hp, hrest⟩
        · exact Or.inl h
        · exact Or.inr ⟨p, List.mem_cons_of_mem _ hp, hrest⟩
      · have hb' : b ∈ (run_callbacks s (q ++ [{ buf with dts := arr }]) tl).2 := by
          simpa [run_callbacks, preview_output_cb, h0, h1] using hb
        rcases run_callbacks_mem tl _ _ b hb' with h | ⟨p, hp, hrest⟩
        · rcases List.mem_append.mp h with h | h
          · exact Or.inl h
          · refine Or.inr ⟨(arr, buf), List.mem_cons_self _ _, h0, h1, ?_⟩
            simpa using h
        · exact Or.inr ⟨p, List.mem_cons_of_mem _ hp, hrest⟩

/-- C9: every buffer the producer callback places into the transfer queue
(starting from the empty queue created at configure time) has non-zero
length, a non-null data handle, and its `dts` field stamped with the arrival
time of its invocation; hence any buffer the consumer dequeues (a member —
in particular the head — of the queue) is neither zero-length nor
null-handled. -/
theorem C9_queue_content_invariant (invs : List (Int × MBuffer))
    (s : RASPITEX_STATE) (b : MBuffer)
    (hb : b ∈ (run_callbacks s [] invs).2) :
    b.length ≠ 0 ∧ b.data ≠ none ∧
    ∃ p ∈ invs, b = { p.2 with dts := p.1 } := by
  rcases run_callbacks_mem invs s [] b hb with h | ⟨p, hp, hlen, hdata, heq⟩
  · simp at h
  · subst heq
    exact ⟨by simpa using hlen, by simpa using hdata, p, hp, rfl⟩

/-- Witness for C9 after one normal-buffer callback invocation. -/
theorem C9_queue_content_invariant_witness :
    ({ normalBuffer with dts := 7 } : MBuffer).length ≠ 0 ∧
    ({ normalBuffer with dts := 7 } : MBuffer).data ≠ none ∧
    ∃ p ∈ [((7 : Int), normalBuffer)],
      ({ normalBuffer with dts := 7 } : MBuffer) = { p.2 with dts := p.1 } :=
  C9_queue_content_invariant [(7, normalBuffer)] runningState
    { normalBuffer with dts := 7 } (by decide)

/-! ## C3 — drain on shutdown -/

/-- Pool capacity in the shutdown scenario: two buffers (ids 1 and 2). -/
def scenCapacity : Nat := 2

/-- The end-of-stream buffer the camera returns on pool buffer 2. -/
def scenEos : MBuffer := { id := 2, length := 0, data := some 12, pts := 0, dts := 0 }

/-- One complete sequential execution of the pipeline at pool capacity 2,
following the code step by step:

1. the worker's refill loop sends both free pool buffers to the camera port
   (the pool's free queue is now empty);
2. the camera fills buffer 1 and invokes `preview_output_cb`, which enqueues
   it (`frame1`);
3. the worker drains the queue: buffer 1 is bound, drawn, presented and
   retained in `preview_buf`;
4. the camera signals end-of-stream on buffer 2: the callback sets the stop
   flag and releases buffer 2 back to the pool;
5. the worker observes the stop flag, leaves its loop and runs the exit
   drain over the (now empty) transfer queue;
6. `raspitex_stop` runs: the flag is already set, so it returns at once.

The result collects (pool contents after all releases, final transfer queue
contents, final state). -/
def shutdownScenario : List Nat × List MBuffer × RASPITEX_STATE :=
  let poolFree : List Nat := []
  let cb1 := preview_output_cb runningState 7 frame1 []
  let w1 := preview_process_returned_bufs cb1.1 cb1.2.1
  let cb2 := preview_output_cb w1.2.1 9 scenEos w1.2.2.1
  let drainEvents := preview_worker_drain cb2.2.1
  let stop := raspitex_stop cb2.1
  (poolAfter poolFree (cb1.2.2 ++ w1.2.2.2 ++ cb2.2.2 ++ drainEvents ++ stop.2),
   cb2.2.1, stop.1)

/-- C3 counterexample: in `shutdownScenario` the stop flag is set and the
transfer queue is empty after `raspitex_stop` returns, but the pool holds
only one of its two buffers: the drawn frame is still retained in
`preview_buf` and is never released by the worker's exit drain
(raspi-tex.c:249-250 releases only buffers still in the queue), so the pool
does not regain its full capacity. -/
theorem C3_drain_counterexample :
    shutdownScenario.2.2.preview_stop = true ∧
    shutdownScenario.2.1 = [] ∧
    shutdownScenario.1 = [2] ∧
    shutdownScenario.1.length ≠ scenCapacity ∧
    shutdownScenario.2.2.preview_buf.isSome = true := by decide

/-- C3 (amended): after the worker exits, the transfer queue is empty and
the exit drain has released exactly the buffers that were still queued —
the pool regains one buffer per formerly-queued buffer; a buffer retained in
`preview_buf` (necessarily not in the queue) is not among them, so it is not
returned to the pool and the pool can end short of its capacity. -/
theorem C3_drain_amended (pool : List Nat) (q : List MBuffer) (p : MBuffer)
    (hpPool : p.id ∉ pool) (hpQ : p.id ∉ q.map MBuffer.id) :
    (poolAfter pool (preview_worker_drain q)).length = pool.length + q.length ∧
    releasedIds (preview_worker_drain q) = q.map MBuffer.id ∧
    p.id ∉ poolAfter pool (preview_worker_drain q) := by
  refine ⟨?_, releasedIds_drain q, ?_⟩
  · simp [poolAfter, releasedIds_drain q]
  · simp only [poolAfter, releasedIds_drain q, List.mem_append]
    rintro (h | h)
    · exact hpPool h
    · exact hpQ h

/-- Witness for C3 (amended): pool `[2]`, empty remaining queue, retained
buffer 1 — the pool stays at one buffer and buffer 1 is not in it. -/
theorem C3_drain_amended_witness :
    (poolAfter [2] (preview_worker_drain [])).length
      = List.length [2] + List.length ([] : List MBuffer) ∧
    releasedIds (preview_worker_drain []) = List.map MBuffer.id ([] : List MBuffer) ∧
    frame1.id ∉ poolAfter [2] (preview_worker_drain []) :=
  C3_drain_amended [2] [] frame1 (by decide) (by decide)
